import Mathlib

/-
Shallow embedding of the cache-fronted retrieval pipeline of the watchlist
backend (src/backend/app), covering:

  * src/backend/app/services/letterboxd.py   (LetterboxdService)
  * src/backend/app/services/availability.py (StreamingAvailabilityService)
  * src/backend/app/services/cache.py        (the redis key/value store, as a map)
  * src/backend/app/config.py                (TTL settings)
  * src/backend/app/models/letterboxd.py, models/motn.py (data models)

Modelling conventions:
  * The redis cache is a list of (key, entry) pairs; `cSet` prepends and
    `cGet` returns the newest entry for a key, which is observationally the
    same as an overwriting store.  Serialized JSON payloads are modelled by
    the `CVal` constructors (serialization is injective and `json.loads`
    recovers exactly the serialized data for the payloads this app writes).
  * Outbound HTTP traffic is an environment given to each operation: a
    response already split into HTTP status and the parsed content that the
    Python code extracts from it (BeautifulSoup / json parsing of well-formed
    upstream documents is treated as given).
  * Python exceptions are an `Except` error: FileNotFoundError -> notFound,
    ConnectionRefusedError -> unavailable, PermissionError -> rateLimited,
    and an uncaught runtime crash (TypeError and similar) -> typeError.
  * Every operation also reports the ordered list of cache keys it read or
    wrote and the number of outbound page/API fetches it performed.
  * Characters are ASCII-scoped: Python's str.strip() and the regex class
    for whitespace are modelled on the six ASCII whitespace characters, and
    the digit class as ASCII digits.
-/

namespace Watchlist

/-- Abstraction of models/motn.py `StreamingOption`: the resolver logic never
inspects its fields (it only moves whole options between the API response,
the cache and the result), so the record is kept as an opaque payload. -/
structure StreamingOption where
  payload : String
deriving DecidableEq, Repr

/-- models/letterboxd.py `LetterboxdMovieItem`: movie id, full display name
(possibly with a trailing parenthesised year), slug, and the
streaming_options list that the scraper always leaves empty. -/
structure LetterboxdMovieItem where
  movie_id : String
  movie_name : String
  movie_slug : String
  streaming_options : List StreamingOption
deriving DecidableEq, Repr

/-- models/letterboxd.py: the `movie_url` computed field. -/
def LetterboxdMovieItem.movie_url (m : LetterboxdMovieItem) : String :=
  "https://letterboxd.com/film/" ++ m.movie_slug

/-- models/motn.py `MOTNMovieSearchResult`, restricted to the fields the
resolver reads: `releaseYear` (optional in the upstream schema) and the
per-country `streamingOptions`.  The per-country record is modelled as an
association list from Python attribute name to option list; a country whose
field is `None` or absent is simply absent from the list, which gives the
same observable behaviour as `getattr(obj, country, None)`. -/
structure MOTNMovieSearchResult where
  title : String
  releaseYear : Option Int
  streamingOptions : List (String × List StreamingOption)
deriving DecidableEq, Repr

/-- `getattr(result.streamingOptions, country, None)` from
availability.py line 113. -/
def getattrCountry (so : List (String × List StreamingOption)) (country : String) :
    Option (List StreamingOption) :=
  (so.find? (fun p => p.1 = country)).map (·.2)

/-- Cache values: each constructor stands for the serialized form the Python
code writes (json.dumps of a movie dump, json.dumps of a movie-dump list,
raw poster bytes, json.dumps of a streaming-option dump list). -/
inductive CVal where
  | movieVal : LetterboxdMovieItem → CVal
  | movieListVal : List LetterboxdMovieItem → CVal
  | posterVal : List Nat → CVal
  | optionsVal : List StreamingOption → CVal
deriving DecidableEq, Repr

/-- A cache row: the stored value and the expiry (`ex=` argument of redis
set; `none` means the key is durable). -/
structure CacheEntry where
  value : CVal
  ttl : Option Nat
deriving DecidableEq, Repr

/-- The redis store, newest row first. -/
abbrev Cache := List (String × CacheEntry)

/-- redis GET: the newest row for the key, if any. -/
def cGet : Cache → String → Option CacheEntry
  | [], _ => none
  | (k', e) :: rest, k => if k = k' then some e else cGet rest k

/-- redis SET: install a new newest row for the key. -/
def cSet (c : Cache) (k : String) (v : CVal) (t : Option Nat) : Cache :=
  (k, ⟨v, t⟩) :: c

/-- A logged cache access. -/
inductive Access where
  | read : String → Access
  | write : String → Access
deriving DecidableEq, Repr

/-- The key an access touched. -/
def Access.key : Access → String
  | .read k => k
  | .write k => k

/-- Whether an access is a write. -/
def Access.isWrite : Access → Bool
  | .read _ => false
  | .write _ => true

/-- Cache key of letterboxd.py line 35 and 53: f"poster:{movie_id}". -/
def posterKey (movie_id : String) : String := "poster:" ++ movie_id

/-- Cache key of letterboxd.py line 85: f"movie:{movie.movie_id}". -/
def movieKey (movie_id : String) : String := "movie:" ++ movie_id

/-- Cache key of letterboxd.py lines 106 and 135: f"watchlist:{username}". -/
def watchlistKey (username : String) : String := "watchlist:" ++ username

/-- Cache key of availability.py lines 135 and 144:
f"streaming_options:{letterboxd_id}". -/
def streamingOptionsKey (letterboxd_id : String) : String :=
  "streaming_options:" ++ letterboxd_id

/-- The error taxonomy carried by Python exceptions in the two services:
FileNotFoundError, ConnectionRefusedError, PermissionError, and an untyped
runtime crash such as TypeError. -/
inductive SvcError where
  | notFound
  | unavailable
  | rateLimited
  | typeError
deriving DecidableEq, Repr

/-- config.py: WATCHLIST_CACHE_TTL default (1 hour). -/
def WATCHLIST_CACHE_TTL : Nat := 3600

/-- config.py: POSTER_CACHE_TTL default (1 year). -/
def POSTER_CACHE_TTL : Nat := 3600 * 24 * 365

/-- config.py: STREAMING_CACHE_TTL default (1 week). -/
def STREAMING_CACHE_TTL : Nat := 3600 * 24 * 7

/-! ## Poster retrieval (letterboxd.py, get_poster_by_movie) -/

/-- The upstream response to the poster URL fetch: HTTP status and body. -/
structure PosterResponse where
  status : Nat
  content : List Nat
deriving DecidableEq, Repr

/-- Outcome of one get_poster_by_movie call: the returned value (`none`
models Python returning None on absent identifiers), the cache after the
call, the logged cache accesses in order, and the number of HTTP fetches. -/
structure PosterRun where
  result : Except SvcError (Option CVal)
  cache : Cache
  accesses : List Access
  fetches : Nat
deriving Repr

/-- letterboxd.py lines 19-59, `get_poster_by_movie`.  Absent identifiers
return None with no cache or network activity; a cache hit returns the
cached value; otherwise the poster URL is fetched once and the status is
mapped: 403/404 raise FileNotFoundError, 500/503 raise
ConnectionRefusedError, and every other status falls through to the success
path, which caches the body under poster:<id> with the poster TTL and
returns it. -/
def get_poster_by_movie (poster_cache_ttl : Nat) (resp : PosterResponse)
    (c : Cache) (movie_slug movie_id : Option String) : PosterRun :=
  match movie_slug, movie_id with
  | some _, some mid =>
    match cGet c (posterKey mid) with
    | some e => ⟨.ok (some e.value), c, [.read (posterKey mid)], 0⟩
    | none =>
      if resp.status = 403 ∨ resp.status = 404 then
        ⟨.error .notFound, c, [.read (posterKey mid)], 1⟩
      else if resp.status = 500 ∨ resp.status = 503 then
        ⟨.error .unavailable, c, [.read (posterKey mid)], 1⟩
      else
        ⟨.ok (some (.posterVal resp.content)),
         cSet c (posterKey mid) (.posterVal resp.content) (some poster_cache_ttl),
         [.read (posterKey mid), .write (posterKey mid)], 1⟩
  | _, _ => ⟨.ok none, c, [], 0⟩

/-! ## Watchlist scraping (letterboxd.py, get_watchlist_by_username) -/

/-- One watchlist page response, already parsed the way the Python code
parses it: HTTP status, the movies of the li.griditem entries in page order,
and the count of li.paginate-page pagination markers in the markup. -/
structure WatchlistResponse where
  status : Nat
  movies : List LetterboxdMovieItem
  numPaginate : Nat

/-- The upstream watchlist site: the response served for each page number. -/
def WatchlistEnv := Nat → WatchlistResponse

/-- The loop body of letterboxd.py `_extract_movies_from_page` lines 75-86:
append each parsed movie to the result and write it to movie:<id> with no
expiry, in page order. -/
def extractGo : Cache → List LetterboxdMovieItem →
    List LetterboxdMovieItem × Cache × List Access
  | c, [] => ([], c, [])
  | c, m :: ms =>
    let r := extractGo (cSet c (movieKey m.movie_id) (.movieVal m) none) ms
    (m :: r.1, r.2.1, .write (movieKey m.movie_id) :: r.2.2)

/-- letterboxd.py `_extract_movies_from_page`: parse the page's grid items
and cache each movie durably. -/
def extract_movies_from_page (c : Cache) (resp : WatchlistResponse) :
    List LetterboxdMovieItem × Cache × List Access :=
  extractGo c resp.movies

/-- Outcome of one get_watchlist_by_username call. -/
structure WatchlistRun where
  result : Except SvcError (List LetterboxdMovieItem)
  cache : Cache
  accesses : List Access
  fetches : Nat

/-- The pagination loop of letterboxd.py lines 129-132: fetch each page in
the given order, extract its movies (caching each), and concatenate. -/
def watchlistPagesLoop (env : WatchlistEnv) : Cache → List Nat →
    List LetterboxdMovieItem × Cache × List Access × Nat
  | c, [] => ([], c, [], 0)
  | c, i :: is =>
    let e := extract_movies_from_page c (env i)
    let r := watchlistPagesLoop env e.2.1 is
    (e.1 ++ r.1, r.2.1, e.2.2 ++ r.2.2.1, r.2.2.2 + 1)

/-- Python range(2, num_pages + 1). -/
def pageRange (num_pages : Nat) : List Nat := List.range' 2 (num_pages - 1)

/-- letterboxd.py lines 88-140, `get_watchlist_by_username`.  Empty username
returns [] at once; a cache hit on watchlist:<username> deserializes and
returns the cached list (a payload that is not a serialized movie list would
crash json/pydantic deserialization); otherwise page 1 is fetched, a
non-200 status raises FileNotFoundError, the page-count is taken from page
1's pagination markers, pages 2..num_pages are fetched and extracted in
order, and the concatenation is cached under watchlist:<username> with the
watchlist TTL and returned. -/
def get_watchlist_by_username (watchlist_cache_ttl : Nat) (env : WatchlistEnv)
    (c : Cache) (username : String) : WatchlistRun :=
  if username = "" then ⟨.ok [], c, [], 0⟩
  else
    match cGet c (watchlistKey username) with
    | some e =>
      match e.value with
      | .movieListVal ms => ⟨.ok ms, c, [.read (watchlistKey username)], 0⟩
      | _ => ⟨.error .typeError, c, [.read (watchlistKey username)], 0⟩
    | none =>
      let r1 := env 1
      if r1.status ≠ 200 then
        ⟨.error .notFound, c, [.read (watchlistKey username)], 1⟩
      else
        let e1 := extract_movies_from_page c r1
        let lp := watchlistPagesLoop env e1.2.1 (pageRange r1.numPaginate)
        let allItems := e1.1 ++ lp.1
        ⟨.ok allItems,
         cSet lp.2.1 (watchlistKey username) (.movieListVal allItems) (some watchlist_cache_ttl),
         .read (watchlistKey username) :: (e1.2.2 ++ lp.2.2.1 ++ [.write (watchlistKey username)]),
         1 + lp.2.2.2⟩

/-! ## Title/year separation (availability.py, _separate_title_from_year) -/

/-- The six ASCII characters of Python's whitespace class. -/
def isPySpace (c : Char) : Bool :=
  c = ' ' || c = '\t' || c = '\n' || c = '\r' || c = '\x0b' || c = '\x0c'

/-- Python str.strip(): drop leading and trailing whitespace. -/
def pyStripList (l : List Char) : List Char :=
  ((l.dropWhile isPySpace).reverse.dropWhile isPySpace).reverse

/-- Python str.strip() on String. -/
def pyStrip (s : String) : String := ⟨pyStripList s.data⟩

/-- Core of availability.py lines 22-42: search the title for a trailing
parenthesised four-digit year allowing surrounding whitespace.  Looking at
the reversed character list, the match exists exactly when, after the
trailing whitespace, the string ends in ')', four digits, '('; on a match
the clean title is everything before the '(' stripped, with the year
digits in original order; otherwise the stripped title with no year. -/
def separateCore (l : List Char) : List Char × Option (List Char) :=
  match l.reverse.dropWhile isPySpace with
  | ')' :: d4 :: d3 :: d2 :: d1 :: '(' :: rest =>
    if d1.isDigit && d2.isDigit && d3.isDigit && d4.isDigit then
      (pyStripList rest.reverse, some [d1, d2, d3, d4])
    else (pyStripList l, none)
  | _ => (pyStripList l, none)

/-- availability.py `_separate_title_from_year`: regex
search of a trailing whitespace-padded "(YYYY)" group; on a match return
(title[:match.start()].strip(), year), else (title.strip(), None). -/
def separate_title_from_year (title : String) : String × Option String :=
  match separateCore title.data with
  | (t, some y) => (⟨t⟩, some ⟨y⟩)
  | (t, none) => (⟨t⟩, none)

/-- Whether a character list carries a trailing parenthesised four-digit
year, i.e. whether the regex of `_separate_title_from_year` matches. -/
def hasTrailingYearL (l : List Char) : Bool :=
  match l.reverse.dropWhile isPySpace with
  | ')' :: d4 :: d3 :: d2 :: d1 :: '(' :: _ =>
    d1.isDigit && d2.isDigit && d3.isDigit && d4.isDigit
  | _ => false

/-- Whether the title carries a trailing parenthesised four-digit year. -/
def hasTrailingYear (title : String) : Bool := hasTrailingYearL title.data

/-- Python int() on the extracted year string, which the regex guarantees
to be exactly four ASCII digits: the base-10 value of its digits. -/
def pyInt (s : String) : Int :=
  Int.ofNat (s.data.foldl (fun n c => n * 10 + (c.toNat - '0'.toNat)) 0)

/-! ## Availability search (availability.py) -/

/-- The movieofthenight search response: HTTP status and the parsed
candidate list (the JSON body; `results = []` is the body `[]`). -/
structure MOTNResponse where
  status : Nat
  results : List MOTNMovieSearchResult

/-- Outcome of an availability operation: the value (`some opts` a returned
slice, `none` the bare `return` of the no-results branch), the cache, the
logged cache accesses and the number of API fetches. -/
structure AvailRun where
  result : Except SvcError (Option (List StreamingOption))
  cache : Cache
  accesses : List Access
  fetches : Nat

/-- The candidate loop of availability.py lines 111-117: take the first
result whose releaseYear equals the target year and whose country slice is
present; a year match whose slice is absent is skipped. -/
def selectLoop (country : String) (yearVal : Int) :
    List MOTNMovieSearchResult → Option (List StreamingOption)
  | [] => none
  | r :: rs =>
    if r.releaseYear = some yearVal then
      match getattrCountry r.streamingOptions country with
      | some opts => some opts
      | none => selectLoop country yearVal rs
    else selectLoop country yearVal rs

/-- availability.py lines 44-122, `_search_availability_by_ID`.  Reads
movie:<id> (absence raises FileNotFoundError; a foreign payload would crash
deserialization), separates title and year, performs the search fetch, then
classifies: status 400/403/404 or body [] raise FileNotFoundError, 500/503
raise ConnectionRefusedError, 429 raises PermissionError; an empty parsed
result list returns None (unreachable: the body-[] branch already fired);
then the candidate loop runs, where comparing against int(None) crashes
with TypeError when no year was extracted, and exhaustion raises
FileNotFoundError. -/
def search_availability_by_ID (resp : MOTNResponse) (c : Cache)
    (letterboxd_id country : String) : AvailRun :=
  match cGet c (movieKey letterboxd_id) with
  | none => ⟨.error .notFound, c, [.read (movieKey letterboxd_id)], 0⟩
  | some e =>
    match e.value with
    | .movieVal movie =>
      let year := (separate_title_from_year movie.movie_name).2
      if resp.status = 400 ∨ resp.status = 403 ∨ resp.status = 404 ∨ resp.results = [] then
        ⟨.error .notFound, c, [.read (movieKey letterboxd_id)], 1⟩
      else if resp.status = 500 ∨ resp.status = 503 then
        ⟨.error .unavailable, c, [.read (movieKey letterboxd_id)], 1⟩
      else if resp.status = 429 then
        ⟨.error .rateLimited, c, [.read (movieKey letterboxd_id)], 1⟩
      else if resp.results.length < 1 then
        ⟨.ok none, c, [.read (movieKey letterboxd_id)], 1⟩
      else
        match year with
        | none => ⟨.error .typeError, c, [.read (movieKey letterboxd_id)], 1⟩
        | some y =>
          match selectLoop country (pyInt y) resp.results with
          | some opts => ⟨.ok (some opts), c, [.read (movieKey letterboxd_id)], 1⟩
          | none => ⟨.error .notFound, c, [.read (movieKey letterboxd_id)], 1⟩
    | _ => ⟨.error .typeError, c, [.read (movieKey letterboxd_id)], 0⟩

/-- availability.py lines 124-145, `get_availability_for_movie`.  A hit on
streaming_options:<id> deserializes and returns (a foreign payload would
crash deserialization); on a miss the search runs, errors propagate, a bare
None result would crash the serialization loop (TypeError), and a returned
slice is cached under streaming_options:<id> with the streaming TTL and
returned. -/
def get_availability_for_movie (streaming_options_ttl : Nat) (resp : MOTNResponse)
    (c : Cache) (letterboxd_id country : String) : AvailRun :=
  let akey := streamingOptionsKey letterboxd_id
  match cGet c akey with
  | some e =>
    match e.value with
    | .optionsVal opts => ⟨.ok (some opts), c, [.read akey], 0⟩
    | _ => ⟨.error .typeError, c, [.read akey], 0⟩
  | none =>
    let run := search_availability_by_ID resp c letterboxd_id country
    match run.result with
    | .error err => ⟨.error err, run.cache, .read akey :: run.accesses, run.fetches⟩
    | .ok none => ⟨.error .typeError, run.cache, .read akey :: run.accesses, run.fetches⟩
    | .ok (some opts) =>
      ⟨.ok (some opts),
       cSet run.cache akey (.optionsVal opts) (some streaming_options_ttl),
       .read akey :: (run.accesses ++ [.write akey]), run.fetches⟩

/-! ## The four key kinds and helper lemmas -/

/-- The four kinds of cache keys the services build. -/
inductive KeyKind where
  | movieK
  | watchlistK
  | posterK
  | streamingK
deriving DecidableEq, Repr

/-- The namespace tag each key kind puts in front of its identifier. -/
def kindTag : KeyKind → String
  | .movieK => "movie:"
  | .watchlistK => "watchlist:"
  | .posterK => "poster:"
  | .streamingK => "streaming_options:"

/-- The first character of each kind's tag; the four are pairwise distinct,
which is what keeps the namespaces collision-free. -/
def kindChar : KeyKind → Char
  | .movieK => 'm'
  | .watchlistK => 'w'
  | .posterK => 'p'
  | .streamingK => 's'

/-- A well-formed cache key: it decomposes as tag-plus-identifier for
exactly one of the four key kinds. -/
def KeyWF (k : String) : Prop :=
  ∃ kk : KeyKind, (∃ id, k = kindTag kk ++ id) ∧
    ∀ kk' : KeyKind, ∀ id' : String, k = kindTag kk' ++ id' → kk' = kk

theorem data_append (a b : String) : (a ++ b).data = a.data ++ b.data := by
  cases a; cases b; rfl

theorem kindTag_head (kk : KeyKind) (a : String) :
    ((kindTag kk ++ a).data).head? = some (kindChar kk) := by
  cases kk <;> rw [data_append] <;> rfl

theorem kindTag_inj {kk kk' : KeyKind} {a b : String}
    (h : kindTag kk ++ a = kindTag kk' ++ b) : kk = kk' := by
  have h1 := kindTag_head kk a
  rw [h, kindTag_head kk' b] at h1
  have h2 : kindChar kk' = kindChar kk := Option.some.inj h1
  cases kk <;> cases kk' <;> first
    | rfl
    | exact absurd h2 (by decide)

theorem keyWF_of_kind (kk : KeyKind) (id : String) : KeyWF (kindTag kk ++ id) :=
  ⟨kk, ⟨id, rfl⟩, fun _ _ h => kindTag_inj h.symm⟩

theorem keyWF_movieKey (id : String) : KeyWF (movieKey id) :=
  keyWF_of_kind .movieK id

theorem keyWF_watchlistKey (u : String) : KeyWF (watchlistKey u) :=
  keyWF_of_kind .watchlistK u

theorem keyWF_posterKey (id : String) : KeyWF (posterKey id) :=
  keyWF_of_kind .posterK id

theorem keyWF_streamingOptionsKey (id : String) : KeyWF (streamingOptionsKey id) :=
  keyWF_of_kind .streamingK id

theorem watchlistKey_ne_movieKey (u id : String) : watchlistKey u ≠ movieKey id := by
  intro h
  have hk : KeyKind.watchlistK = KeyKind.movieK :=
    @kindTag_inj .watchlistK .movieK u id h
  exact absurd hk (by decide)

theorem cGet_cSet_self (c : Cache) (k : String) (v : CVal) (t : Option Nat) :
    cGet (cSet c k v t) k = some ⟨v, t⟩ := by
  simp [cGet, cSet]

theorem cGet_cSet_ne (c : Cache) (k k' : String) (v : CVal) (t : Option Nat)
    (h : k' ≠ k) : cGet (cSet c k v t) k' = cGet c k' := by
  simp [cGet, cSet, h]

theorem separateCore_no_year (l : List Char) (h : hasTrailingYearL l = false) :
    separateCore l = (pyStripList l, none) := by
  unfold separateCore
  unfold hasTrailingYearL at h
  split
  · rename_i d4 d3 d2 d1 rest heq
    rw [heq] at h
    have h' : (d1.isDigit && d2.isDigit && d3.isDigit && d4.isDigit) = false := h
    simp [h']
  · rfl

theorem extractGo_items (c : Cache) (ms : List LetterboxdMovieItem) :
    (extractGo c ms).1 = ms := by
  induction ms generalizing c with
  | nil => rfl
  | cons m ms ih => simp [extractGo, ih]

theorem extractGo_log (c : Cache) (ms : List LetterboxdMovieItem) :
    (extractGo c ms).2.2 = ms.map (fun m => Access.write (movieKey m.movie_id)) := by
  induction ms generalizing c with
  | nil => rfl
  | cons m ms ih => simp [extractGo, ih]

/-- A movie row is present in the cache durably: movie:<id> holds some
serialized movie and carries no expiry. -/
def MoviePresent (c : Cache) (id : String) : Prop :=
  ∃ m', cGet c (movieKey id) = some ⟨.movieVal m', none⟩

theorem moviePresent_cSet_movie (c : Cache) (id id' : String)
    (m : LetterboxdMovieItem) (h : MoviePresent c id) :
    MoviePresent (cSet c (movieKey id') (.movieVal m) none) id := by
  by_cases he : movieKey id = movieKey id'
  · exact ⟨m, by rw [he]; exact cGet_cSet_self ..⟩
  · obtain ⟨m', hm⟩ := h
    exact ⟨m', by rw [cGet_cSet_ne _ _ _ _ _ he]; exact hm⟩

theorem moviePresent_cSet_other (c : Cache) (id k : String) (v : CVal)
    (t : Option Nat) (hk : movieKey id ≠ k) (h : MoviePresent c id) :
    MoviePresent (cSet c k v t) id := by
  obtain ⟨m', hm⟩ := h
  exact ⟨m', by rw [cGet_cSet_ne _ _ _ _ _ hk]; exact hm⟩

theorem extractGo_present (c : Cache) (ms : List LetterboxdMovieItem) :
    (∀ id, MoviePresent c id → MoviePresent (extractGo c ms).2.1 id) ∧
    (∀ m ∈ ms, MoviePresent (extractGo c ms).2.1 m.movie_id) := by
  induction ms generalizing c with
  | nil => exact ⟨fun _ h => h, by simp⟩
  | cons m ms ih =>
    constructor
    · intro id h
      simp only [extractGo]
      exact (ih _).1 id (moviePresent_cSet_movie _ _ _ _ h)
    · intro m' hm'
      simp only [extractGo]
      rcases List.mem_cons.1 hm' with h | h
      · subst h
        exact (ih _).1 _ ⟨m', cGet_cSet_self ..⟩
      · exact (ih _).2 m' h

theorem loop_items (env : WatchlistEnv) (c : Cache) (is : List Nat) :
    (watchlistPagesLoop env c is).1 = (is.map fun i => (env i).movies).flatten := by
  induction is generalizing c with
  | nil => rfl
  | cons i is ih =>
    simp [watchlistPagesLoop, extract_movies_from_page, extractGo_items, ih]

theorem loop_count (env : WatchlistEnv) (c : Cache) (is : List Nat) :
    (watchlistPagesLoop env c is).2.2.2 = is.length := by
  induction is generalizing c with
  | nil => rfl
  | cons i is ih => simp [watchlistPagesLoop, ih]

theorem loop_log (env : WatchlistEnv) (c : Cache) (is : List Nat) :
    (watchlistPagesLoop env c is).2.2.1 =
      (is.map fun i =>
        (env i).movies.map fun m => Access.write (movieKey m.movie_id)).flatten := by
  induction is generalizing c with
  | nil => rfl
  | cons i is ih =>
    simp [watchlistPagesLoop, extract_movies_from_page, extractGo_log, ih]

theorem loop_present (env : WatchlistEnv) (c : Cache) (is : List Nat) :
    (∀ id, MoviePresent c id → MoviePresent (watchlistPagesLoop env c is).2.1 id) ∧
    (∀ i ∈ is, ∀ m ∈ (env i).movies,
      MoviePresent (watchlistPagesLoop env c is).2.1 m.movie_id) := by
  induction is generalizing c with
  | nil => exact ⟨fun _ h => h, by simp⟩
  | cons i is ih =>
    constructor
    · intro id h
      simp only [watchlistPagesLoop, extract_movies_from_page]
      exact (ih _).1 id ((extractGo_present c (env i).movies).1 id h)
    · intro i' hi' m hm
      simp only [watchlistPagesLoop, extract_movies_from_page]
      rcases List.mem_cons.1 hi' with h | h
      · subst h
        exact (ih _).1 _ ((extractGo_present c (env i').movies).2 m hm)
      · exact (ih _).2 i' h m hm

theorem selectLoop_eq_find (country : String) (y : Int)
    (rs : List MOTNMovieSearchResult) :
    selectLoop country y rs =
      (rs.find? (fun r => decide (r.releaseYear = some y) &&
          (getattrCountry r.streamingOptions country).isSome)).bind
        (fun r => getattrCountry r.streamingOptions country) := by
  induction rs with
  | nil => rfl
  | cons r rs ih =>
    unfold selectLoop
    by_cases hy : r.releaseYear = some y
    · cases ho : getattrCountry r.streamingOptions country with
      | some opts => simp [List.find?, hy, ho]
      | none => simp [List.find?, hy, ho, ih]
    · simp [List.find?, hy, ih]

theorem search_no_year_result (resp : MOTNResponse) (c : Cache)
    (lid country : String) (m : LetterboxdMovieItem) (t : Option Nat)
    (hc : cGet c (movieKey lid) = some ⟨.movieVal m, t⟩)
    (hs1 : resp.status ≠ 400) (hs2 : resp.status ≠ 403) (hs3 : resp.status ≠ 404)
    (hs4 : resp.status ≠ 500) (hs5 : resp.status ≠ 503) (hs6 : resp.status ≠ 429)
    (hres : resp.results ≠ [])
    (hy : (separate_title_from_year m.movie_name).2 = none) :
    (search_availability_by_ID resp c lid country).result = .error .typeError := by
  have hlen : ¬ resp.results.length < 1 := by
    have := List.length_pos.mpr hres
    omega
  simp [search_availability_by_ID, hc, hs1, hs2, hs3, hs4, hs5, hs6, hres, hlen, hy]

theorem search_some_year_result (resp : MOTNResponse) (c : Cache)
    (lid country : String) (m : LetterboxdMovieItem) (t : Option Nat) (y : String)
    (hc : cGet c (movieKey lid) = some ⟨.movieVal m, t⟩)
    (hs1 : resp.status ≠ 400) (hs2 : resp.status ≠ 403) (hs3 : resp.status ≠ 404)
    (hs4 : resp.status ≠ 500) (hs5 : resp.status ≠ 503) (hs6 : resp.status ≠ 429)
    (hres : resp.results ≠ [])
    (hy : (separate_title_from_year m.movie_name).2 = some y) :
    (search_availability_by_ID resp c lid country).result =
      match selectLoop country (pyInt y) resp.results with
      | some opts => .ok (some opts)
      | none => .error .notFound := by
  have hlen : ¬ resp.results.length < 1 := by
    have := List.length_pos.mpr hres
    omega
  cases hsel : selectLoop country (pyInt y) resp.results <;>
    simp [search_availability_by_ID, hc, hs1, hs2, hs3, hs4, hs5, hs6, hres, hlen,
      hy, hsel]

/-! ## Claim theorems -/

/-- C4: the external search response classification, with the NotFound rule
taking the precedence it has in the code: HTTP status 400/403/404 or an
empty result body map to NotFound; otherwise (in particular with a
non-empty body) 500/503 map to Unavailable and 429 to RateLimited. -/
theorem motn_search_status_mapping (resp : MOTNResponse) (c : Cache)
    (lid country : String) (m : LetterboxdMovieItem) (t : Option Nat)
    (hc : cGet c (movieKey lid) = some ⟨.movieVal m, t⟩) :
    ((resp.status = 400 ∨ resp.status = 403 ∨ resp.status = 404 ∨ resp.results = []) →
      (search_availability_by_ID resp c lid country).result = .error .notFound) ∧
    (resp.results ≠ [] → (resp.status = 500 ∨ resp.status = 503) →
      (search_availability_by_ID resp c lid country).result = .error .unavailable) ∧
    (resp.results ≠ [] → resp.status = 429 →
      (search_availability_by_ID resp c lid country).result = .error .rateLimited) := by
  refine ⟨?_, ?_, ?_⟩
  · intro h
    rcases h with h | h | h | h <;> simp [search_availability_by_ID, hc, h]
  · intro hne h
    rcases h with h | h <;> simp [search_availability_by_ID, hc, h, hne]
  · intro hne h
    simp [search_availability_by_ID, hc, h, hne]

/-- C4 witness: concrete evaluations of the three mapped classes — a 429
response with a non-empty body is RateLimited, a 404 with an empty body is
NotFound, and a 503 with a non-empty body is Unavailable. -/
theorem motn_search_status_mapping_witness :
    (search_availability_by_ID ⟨429, [⟨"X", some 1994, []⟩]⟩
        [(movieKey "42", ⟨.movieVal ⟨"42", "X (1994)", "x", []⟩, none⟩)]
        "42" "de").result = .error .rateLimited ∧
    (search_availability_by_ID ⟨404, []⟩
        [(movieKey "42", ⟨.movieVal ⟨"42", "X (1994)", "x", []⟩, none⟩)]
        "42" "de").result = .error .notFound ∧
    (search_availability_by_ID ⟨503, [⟨"X", some 1994, []⟩]⟩
        [(movieKey "42", ⟨.movieVal ⟨"42", "X (1994)", "x", []⟩, none⟩)]
        "42" "de").result = .error .unavailable :=
  ⟨(motn_search_status_mapping ⟨429, [⟨"X", some 1994, []⟩]⟩
      [(movieKey "42", ⟨.movieVal ⟨"42", "X (1994)", "x", []⟩, none⟩)]
      "42" "de" ⟨"42", "X (1994)", "x", []⟩ none rfl).2.2 (by decide) rfl,
   (motn_search_status_mapping ⟨404, []⟩
      [(movieKey "42", ⟨.movieVal ⟨"42", "X (1994)", "x", []⟩, none⟩)]
      "42" "de" ⟨"42", "X (1994)", "x", []⟩ none rfl).1 (by decide),
   (motn_search_status_mapping ⟨503, [⟨"X", some 1994, []⟩]⟩
      [(movieKey "42", ⟨.movieVal ⟨"42", "X (1994)", "x", []⟩, none⟩)]
      "42" "de" ⟨"42", "X (1994)", "x", []⟩ none rfl).2.1 (by decide) (Or.inr rfl)⟩

/-- C2 counterexample: a cached title with no extractable year and a
non-empty candidate list (none of whose years can match) does not fail with
NotFound — the code crashes comparing against int(None), a TypeError. -/
theorem availability_missing_year_cex :
    (search_availability_by_ID ⟨200, [⟨"Mulholland Drive", some 2001, []⟩]⟩
        [(movieKey "42",
          ⟨.movieVal ⟨"42", "Mulholland Drive", "mulholland-drive", []⟩, none⟩)]
        "42" "de").result = .error .typeError ∧
    SvcError.typeError ≠ SvcError.notFound :=
  ⟨rfl, by decide⟩

/-- C2 (amended): on the success-status path of a cache-miss availability
lookup, when a year was extracted from the cached title the resolver
selects the first candidate whose releaseYear equals that year and whose
country slice is present, returning that slice, and fails with NotFound
when there is no such candidate; when no year could be extracted the
operation does not fail with NotFound but crashes with a TypeError. -/
theorem availability_year_match_selection (resp : MOTNResponse) (c : Cache)
    (lid country : String) (m : LetterboxdMovieItem) (t : Option Nat)
    (hc : cGet c (movieKey lid) = some ⟨.movieVal m, t⟩)
    (hs1 : resp.status ≠ 400) (hs2 : resp.status ≠ 403) (hs3 : resp.status ≠ 404)
    (hs4 : resp.status ≠ 500) (hs5 : resp.status ≠ 503) (hs6 : resp.status ≠ 429)
    (hres : resp.results ≠ []) :
    ((separate_title_from_year m.movie_name).2 = none →
      (search_availability_by_ID resp c lid country).result = .error .typeError) ∧
    (∀ y : String, (separate_title_from_year m.movie_name).2 = some y →
      (search_availability_by_ID resp c lid country).result =
        match (resp.results.find? (fun r => decide (r.releaseYear = some (pyInt y)) &&
            (getattrCountry r.streamingOptions country).isSome)).bind
          (fun r => getattrCountry r.streamingOptions country) with
        | some opts => .ok (some opts)
        | none => .error .notFound) := by
  constructor
  · intro hy
    exact search_no_year_result resp c lid country m t hc hs1 hs2 hs3 hs4 hs5 hs6 hres hy
  · intro y hy
    rw [search_some_year_result resp c lid country m t y hc hs1 hs2 hs3 hs4 hs5 hs6
      hres hy, selectLoop_eq_find]

/-- C2 witness: the TypeError case of the amended claim, evaluated on a
concrete cached title with no trailing year. -/
theorem availability_year_match_selection_witness :
    (search_availability_by_ID ⟨200, [⟨"Pi", some 1998, []⟩]⟩
        [(movieKey "7", ⟨.movieVal ⟨"7", "Pi", "pi", []⟩, none⟩)]
        "7" "de").result = .error .typeError :=
  (availability_year_match_selection ⟨200, [⟨"Pi", some 1998, []⟩]⟩
      [(movieKey "7", ⟨.movieVal ⟨"7", "Pi", "pi", []⟩, none⟩)]
      "7" "de" ⟨"7", "Pi", "pi", []⟩ none rfl
      (by decide) (by decide) (by decide) (by decide) (by decide) (by decide)
      (by decide)).1 rfl

/-- C10: in the candidate loop, a year-matching candidate whose slice for
the requested country is absent is skipped: when the first candidate (in
list order) that both matches the extracted year and has a present country
slice exists, its slice is the returned value; when no candidate matches
the year with a present slice, the operation fails with NotFound rather
than succeeding with an empty result. -/
theorem availability_slice_skip (resp : MOTNResponse) (c : Cache)
    (lid country : String) (m : LetterboxdMovieItem) (t : Option Nat) (y : String)
    (hc : cGet c (movieKey lid) = some ⟨.movieVal m, t⟩)
    (hs1 : resp.status ≠ 400) (hs2 : resp.status ≠ 403) (hs3 : resp.status ≠ 404)
    (hs4 : resp.status ≠ 500) (hs5 : resp.status ≠ 503) (hs6 : resp.status ≠ 429)
    (hres : resp.results ≠ [])
    (hy : (separate_title_from_year m.movie_name).2 = some y) :
    (∀ r : MOTNMovieSearchResult, ∀ opts : List StreamingOption,
      resp.results.find? (fun r' => decide (r'.releaseYear = some (pyInt y)) &&
          (getattrCountry r'.streamingOptions country).isSome) = some r →
      getattrCountry r.streamingOptions country = some opts →
      (search_availability_by_ID resp c lid country).result = .ok (some opts)) ∧
    (resp.results.find? (fun r' => decide (r'.releaseYear = some (pyInt y)) &&
        (getattrCountry r'.streamingOptions country).isSome) = none →
      (search_availability_by_ID resp c lid country).result = .error .notFound) := by
  have hsp := search_some_year_result resp c lid country m t y hc hs1 hs2 hs3 hs4 hs5
    hs6 hres hy
  rw [hsp, selectLoop_eq_find]
  constructor
  · intro r opts hfind hslice
    rw [hfind]
    simp [hslice]
  · intro hfind
    rw [hfind]
    rfl

/-- C10 witness: with two candidates of the matching year, the first
lacking the country slice and the second carrying it, the second
candidate's slice is returned. -/
theorem availability_slice_skip_witness :
    (search_availability_by_ID
        ⟨200, [⟨"A", some 1994, []⟩, ⟨"A", some 1994, [("de", [⟨"netflix"⟩])]⟩]⟩
        [(movieKey "3", ⟨.movieVal ⟨"3", "A (1994)", "a", []⟩, none⟩)]
        "3" "de").result = .ok (some [⟨"netflix"⟩]) :=
  (availability_slice_skip
      ⟨200, [⟨"A", some 1994, []⟩, ⟨"A", some 1994, [("de", [⟨"netflix"⟩])]⟩]⟩
      [(movieKey "3", ⟨.movieVal ⟨"3", "A (1994)", "a", []⟩, none⟩)]
      "3" "de" ⟨"3", "A (1994)", "a", []⟩ none "1994" rfl
      (by decide) (by decide) (by decide) (by decide) (by decide) (by decide)
      (by decide) (by decide)).1
    ⟨"A", some 1994, [("de", [⟨"netflix"⟩])]⟩ [⟨"netflix"⟩] (by decide) rfl

/-- C5 counterexample: the title `" Mulholland Drive "` contains no trailing
parenthetical year, yet `_separate_title_from_year` does not return it
unchanged — it returns the whitespace-stripped `"Mulholland Drive"`. -/
theorem title_strip_cex :
    separate_title_from_year " Mulholland Drive " = ("Mulholland Drive", none) ∧
    (" Mulholland Drive " : String) ≠ "Mulholland Drive" := by
  constructor
  · decide
  · decide

/-- C5 (amended): year extraction splits on a trailing `(YYYY)` pattern:
`"The Shawshank Redemption (1994)"` yields
`("The Shawshank Redemption", "1994")`; every title string containing no
trailing four-digit parenthetical year yields the title stripped of leading
and trailing whitespace (not unchanged) together with an absent year. -/
theorem title_year_separation :
    separate_title_from_year "The Shawshank Redemption (1994)"
      = ("The Shawshank Redemption", some "1994") ∧
    ∀ t : String, hasTrailingYear t = false →
      separate_title_from_year t = (pyStrip t, none) := by
  constructor
  · decide
  · intro t h
    unfold separate_title_from_year
    rw [separateCore_no_year t.data h]
    rfl

/-- C5 witness: the amended no-year case evaluated on a concrete title. -/
theorem title_year_separation_witness :
    hasTrailingYear "Mulholland Drive" = false ∧
    separate_title_from_year "Mulholland Drive" = (pyStrip "Mulholland Drive", none) :=
  ⟨by decide, title_year_separation.2 "Mulholland Drive" (by decide)⟩

/-- C3 counterexample: a poster response with the non-success status 400 is
not mapped to Unavailable; the code falls through to the success path,
caching the body under poster:<id> and returning it. -/
theorem poster_unmapped_status_cex :
    (get_poster_by_movie 3600 ⟨400, [7, 7]⟩ [] (some "slug") (some "9")).result
      = .ok (some (.posterVal [7, 7])) ∧
    cGet (get_poster_by_movie 3600 ⟨400, [7, 7]⟩ [] (some "slug") (some "9")).cache
      (posterKey "9") = some ⟨.posterVal [7, 7], some 3600⟩ := by
  constructor
  · rfl
  · rfl

/-- C3 (amended): on a cache miss, `get_poster_by_movie` maps the upstream
status 403 or 404 to NotFound and 500 or 503 to Unavailable, both without
caching; every other status — success or not — is treated as success: the
raw body is cached under poster:<id> with the poster TTL and returned. -/
theorem poster_status_mapping (poster_cache_ttl : Nat) (resp : PosterResponse)
    (c : Cache) (slug mid : String)
    (hmiss : cGet c (posterKey mid) = none) :
    ((resp.status = 403 ∨ resp.status = 404) →
      (get_poster_by_movie poster_cache_ttl resp c (some slug) (some mid)).result
          = .error .notFound ∧
      (get_poster_by_movie poster_cache_ttl resp c (some slug) (some mid)).cache = c) ∧
    ((resp.status = 500 ∨ resp.status = 503) →
      (get_poster_by_movie poster_cache_ttl resp c (some slug) (some mid)).result
          = .error .unavailable ∧
      (get_poster_by_movie poster_cache_ttl resp c (some slug) (some mid)).cache = c) ∧
    (resp.status ∉ ([403, 404, 500, 503] : List Nat) →
      (get_poster_by_movie poster_cache_ttl resp c (some slug) (some mid)).result
          = .ok (some (.posterVal resp.content)) ∧
      cGet (get_poster_by_movie poster_cache_ttl resp c (some slug) (some mid)).cache
          (posterKey mid) = some ⟨.posterVal resp.content, some poster_cache_ttl⟩) := by
  refine ⟨?_, ?_, ?_⟩
  · intro h
    simp [get_poster_by_movie, hmiss, h]
  · intro h
    have h4 : ¬ (resp.status = 403 ∨ resp.status = 404) := by omega
    simp [get_poster_by_movie, hmiss, h4, h]
  · intro h
    simp at h
    obtain ⟨h1, h2, h3, h4⟩ := h
    simp [get_poster_by_movie, hmiss, h1, h2, h3, h4, cGet_cSet_self]

/-- C3 witness: the amended mapping evaluated at status 400. -/
theorem poster_status_mapping_witness :
    (get_poster_by_movie 7 ⟨400, [1, 2]⟩ [] (some "s") (some "9")).result
      = .ok (some (.posterVal [1, 2])) ∧
    cGet (get_poster_by_movie 7 ⟨400, [1, 2]⟩ [] (some "s") (some "9")).cache
      (posterKey "9") = some ⟨.posterVal [1, 2], some 7⟩ :=
  (poster_status_mapping 7 ⟨400, [1, 2]⟩ [] "s" "9" rfl).2.2 (by decide)

/-- C7: on a cache miss a successful poster fetch caches the raw response
bytes under poster:<id> with the poster TTL, returns them, and a subsequent
call for the same id returns those same bytes from the cache with zero
fetches, whatever the upstream would respond the second time. -/
theorem poster_cache_roundtrip (poster_cache_ttl : Nat)
    (resp resp2 : PosterResponse) (c : Cache) (slug slug2 mid : String)
    (hmiss : cGet c (posterKey mid) = none) (hok : resp.status = 200) :
    (get_poster_by_movie poster_cache_ttl resp c (some slug) (some mid)).result
        = .ok (some (.posterVal resp.content)) ∧
    cGet (get_poster_by_movie poster_cache_ttl resp c (some slug) (some mid)).cache
        (posterKey mid) = some ⟨.posterVal resp.content, some poster_cache_ttl⟩ ∧
    (get_poster_by_movie poster_cache_ttl resp2
        (get_poster_by_movie poster_cache_ttl resp c (some slug) (some mid)).cache
        (some slug2) (some mid)).result = .ok (some (.posterVal resp.content)) ∧
    (get_poster_by_movie poster_cache_ttl resp2
        (get_poster_by_movie poster_cache_ttl resp c (some slug) (some mid)).cache
        (some slug2) (some mid)).fetches = 0 := by
  have hrun : get_poster_by_movie poster_cache_ttl resp c (some slug) (some mid)
      = ⟨.ok (some (.posterVal resp.content)),
         cSet c (posterKey mid) (.posterVal resp.content) (some poster_cache_ttl),
         [.read (posterKey mid), .write (posterKey mid)], 1⟩ := by
    simp [get_poster_by_movie, hmiss, hok]
  rw [hrun]
  refine ⟨rfl, cGet_cSet_self .., ?_, ?_⟩ <;>
    simp [get_poster_by_movie, cGet_cSet_self]

/-- C7 witness: the round trip evaluated on concrete bytes. -/
theorem poster_cache_roundtrip_witness :
    (get_poster_by_movie 5 ⟨200, [9, 8]⟩ [] (some "s") (some "42")).result
        = .ok (some (.posterVal [9, 8])) ∧
    cGet (get_poster_by_movie 5 ⟨200, [9, 8]⟩ [] (some "s") (some "42")).cache
        (posterKey "42") = some ⟨.posterVal [9, 8], some 5⟩ ∧
    (get_poster_by_movie 5 ⟨503, []⟩
        (get_poster_by_movie 5 ⟨200, [9, 8]⟩ [] (some "s") (some "42")).cache
        (some "s") (some "42")).result = .ok (some (.posterVal [9, 8])) ∧
    (get_poster_by_movie 5 ⟨503, []⟩
        (get_poster_by_movie 5 ⟨200, [9, 8]⟩ [] (some "s") (some "42")).cache
        (some "s") (some "42")).fetches = 0 :=
  poster_cache_roundtrip 5 ⟨200, [9, 8]⟩ ⟨503, []⟩ [] "s" "s" "42" rfl rfl

/-- C1 counterexample: a page-1 response declaring zero pagination markers
(a single-page watchlist) still costs one page fetch, not zero. -/
theorem watchlist_zero_markers_cex :
    ((fun _ => (⟨200, [⟨"1", "M (2000)", "m", []⟩], 0⟩ : WatchlistResponse))
        (1 : Nat)).numPaginate = 0 ∧
    (get_watchlist_by_username 3600
        (fun _ => (⟨200, [⟨"1", "M (2000)", "m", []⟩], 0⟩ : WatchlistResponse))
        [] "alice").fetches = 1 :=
  ⟨rfl, rfl⟩

/-- C1 (amended): on a cache miss with a page-1 response declaring N
pagination markers, the scrape performs exactly max N 1 page fetches —
page 1 is always fetched, and for N ≥ 1 this is exactly N — with the page
count taken from page 1 only, and it returns the concatenation of each
fetched page's parsed movies in page order. -/
theorem watchlist_page_fetch_count (watchlist_cache_ttl : Nat)
    (env : WatchlistEnv) (c : Cache) (u : String)
    (hu : u ≠ "") (hmiss : cGet c (watchlistKey u) = none)
    (hok : (env 1).status = 200) :
    (get_watchlist_by_username watchlist_cache_ttl env c u).fetches
        = max (env 1).numPaginate 1 ∧
    (get_watchlist_by_username watchlist_cache_ttl env c u).result =
      .ok (((List.range' 1 (max (env 1).numPaginate 1)).map
        fun i => (env i).movies).flatten) := by
  have hmax : max (env 1).numPaginate 1 = ((env 1).numPaginate - 1) + 1 := by omega
  constructor
  · simp only [get_watchlist_by_username, hu, hmiss, hok]
    simp [loop_count, pageRange]
    omega
  · simp only [get_watchlist_by_username, hu, hmiss, hok]
    simp [extract_movies_from_page, extractGo_items, loop_items, pageRange, hok]
    rw [hmax, List.range'_succ]
    simp

/-- C1 witness: a three-page watchlist costs three fetches and returns the
three pages' movies in order. -/
theorem watchlist_page_fetch_count_witness :
    (get_watchlist_by_username 3600
        (fun i => (⟨200, [⟨toString i, "M", "m", []⟩], 3⟩ : WatchlistResponse))
        [] "bob").fetches = 3 ∧
    (get_watchlist_by_username 3600
        (fun i => (⟨200, [⟨toString i, "M", "m", []⟩], 3⟩ : WatchlistResponse))
        [] "bob").result
      = .ok [⟨"1", "M", "m", []⟩, ⟨"2", "M", "m", []⟩, ⟨"3", "M", "m", []⟩] := by
  have h := watchlist_page_fetch_count 3600
    (fun i => (⟨200, [⟨toString i, "M", "m", []⟩], 3⟩ : WatchlistResponse))
    [] "bob" (by decide) rfl rfl
  exact ⟨h.1, by rw [h.2]; rfl⟩

/-- C6: after a successful cache-miss scrape run with the configured
watchlist TTL (which is positive), every parsed movie id has a durable
movie:<id> row in the final cache, and watchlist:<u> holds the parsed list
with exactly the configured TTL. -/
theorem scrape_cache_population (env : WatchlistEnv) (c : Cache) (u : String)
    (hu : u ≠ "") (hmiss : cGet c (watchlistKey u) = none)
    (hok : (env 1).status = 200) :
    0 < WATCHLIST_CACHE_TTL ∧
    ∀ ms, (get_watchlist_by_username WATCHLIST_CACHE_TTL env c u).result = .ok ms →
      (∀ m ∈ ms,
        MoviePresent (get_watchlist_by_username WATCHLIST_CACHE_TTL env c u).cache
          m.movie_id) ∧
      cGet (get_watchlist_by_username WATCHLIST_CACHE_TTL env c u).cache
          (watchlistKey u)
        = some ⟨.movieListVal ms, some WATCHLIST_CACHE_TTL⟩ := by
  refine ⟨by decide, ?_⟩
  intro ms hms
  have hresult : (get_watchlist_by_username WATCHLIST_CACHE_TTL env c u).result
      = .ok ((extract_movies_from_page c (env 1)).1
          ++ (watchlistPagesLoop env (extract_movies_from_page c (env 1)).2.1
              (pageRange (env 1).numPaginate)).1) := by
    simp only [get_watchlist_by_username, hu, hmiss, hok]
    simp
  have hcache : (get_watchlist_by_username WATCHLIST_CACHE_TTL env c u).cache
      = cSet (watchlistPagesLoop env (extract_movies_from_page c (env 1)).2.1
            (pageRange (env 1).numPaginate)).2.1
          (watchlistKey u)
          (.movieListVal ((extract_movies_from_page c (env 1)).1
            ++ (watchlistPagesLoop env (extract_movies_from_page c (env 1)).2.1
                (pageRange (env 1).numPaginate)).1))
          (some WATCHLIST_CACHE_TTL) := by
    simp only [get_watchlist_by_username, hu, hmiss, hok]
    simp
  rw [hresult] at hms
  injection hms with hms
  subst hms
  constructor
  · intro m hm
    rw [hcache]
    apply moviePresent_cSet_other _ _ _ _ _ (watchlistKey_ne_movieKey u m.movie_id).symm
    rcases List.mem_append.1 hm with h | h
    · rw [extract_movies_from_page, extractGo_items] at h
      exact (loop_present env (extract_movies_from_page c (env 1)).2.1
        (pageRange (env 1).numPaginate)).1 _
        ((extractGo_present c (env 1).movies).2 m h)
    · rw [loop_items] at h
      obtain ⟨l, hl, hml⟩ := List.mem_flatten.1 h
      obtain ⟨i, hi, rfl⟩ := List.mem_map.1 hl
      exact (loop_present env (extract_movies_from_page c (env 1)).2.1
        (pageRange (env 1).numPaginate)).2 i hi m hml
  · rw [hcache]
    exact cGet_cSet_self ..

/-- C6 witness: a concrete one-page scrape leaves the movie row durable and
the watchlist row at the configured TTL. -/
theorem scrape_cache_population_witness :
    0 < WATCHLIST_CACHE_TTL ∧
    MoviePresent (get_watchlist_by_username WATCHLIST_CACHE_TTL
        (fun _ => (⟨200, [⟨"5", "N (2001)", "n", []⟩], 0⟩ : WatchlistResponse))
        [] "alice").cache "5" ∧
    cGet (get_watchlist_by_username WATCHLIST_CACHE_TTL
        (fun _ => (⟨200, [⟨"5", "N (2001)", "n", []⟩], 0⟩ : WatchlistResponse))
        [] "alice").cache (watchlistKey "alice")
      = some ⟨.movieListVal [⟨"5", "N (2001)", "n", []⟩], some WATCHLIST_CACHE_TTL⟩ := by
  have h := scrape_cache_population
    (fun _ => (⟨200, [⟨"5", "N (2001)", "n", []⟩], 0⟩ : WatchlistResponse))
    [] "alice" (by decide) rfl rfl
  exact ⟨h.1, (h.2 _ rfl).1 ⟨"5", "N (2001)", "n", []⟩ (by decide),
    (h.2 _ rfl).2⟩

/-- C8 counterexample: for the empty username the code returns [] before
consulting the cache, so a present watchlist: row is not returned. -/
theorem watchlist_empty_username_cex :
    cGet [(watchlistKey "", ⟨.movieListVal [⟨"1", "A (2000)", "a", []⟩], some 60⟩)]
        (watchlistKey "")
      = some ⟨.movieListVal [⟨"1", "A (2000)", "a", []⟩], some 60⟩ ∧
    (get_watchlist_by_username 3600 (fun _ => (⟨200, [], 0⟩ : WatchlistResponse))
        [(watchlistKey "", ⟨.movieListVal [⟨"1", "A (2000)", "a", []⟩], some 60⟩)]
        "").result = .ok [] ∧
    ([] : List LetterboxdMovieItem) ≠ [⟨"1", "A (2000)", "a", []⟩] :=
  ⟨rfl, rfl, by decide⟩

/-- C8 (amended): for every non-empty username whose watchlist:<u> row
holds a serialized movie list, the call returns exactly that list, leaves
the cache untouched, performs zero fetches and performs no cache write
(its only cache access is the one read of watchlist:<u>). -/
theorem watchlist_cache_hit (watchlist_cache_ttl : Nat) (env : WatchlistEnv)
    (c : Cache) (u : String) (ms : List LetterboxdMovieItem) (t : Option Nat)
    (hu : u ≠ "") (hhit : cGet c (watchlistKey u) = some ⟨.movieListVal ms, t⟩) :
    (get_watchlist_by_username watchlist_cache_ttl env c u).result = .ok ms ∧
    (get_watchlist_by_username watchlist_cache_ttl env c u).cache = c ∧
    (get_watchlist_by_username watchlist_cache_ttl env c u).fetches = 0 ∧
    (get_watchlist_by_username watchlist_cache_ttl env c u).accesses
      = [.read (watchlistKey u)] := by
  refine ⟨?_, ?_, ?_, ?_⟩ <;> simp [get_watchlist_by_username, hu, hhit]

/-- C8 witness: a concrete cache hit returns the cached list verbatim with
no fetch and no write. -/
theorem watchlist_cache_hit_witness :
    (get_watchlist_by_username 3600 (fun _ => (⟨200, [], 0⟩ : WatchlistResponse))
        [(watchlistKey "carol", ⟨.movieListVal [⟨"9", "B (1999)", "b", []⟩], some 60⟩)]
        "carol").result = .ok [⟨"9", "B (1999)", "b", []⟩] ∧
    (get_watchlist_by_username 3600 (fun _ => (⟨200, [], 0⟩ : WatchlistResponse))
        [(watchlistKey "carol", ⟨.movieListVal [⟨"9", "B (1999)", "b", []⟩], some 60⟩)]
        "carol").cache
      = [(watchlistKey "carol", ⟨.movieListVal [⟨"9", "B (1999)", "b", []⟩], some 60⟩)] ∧
    (get_watchlist_by_username 3600 (fun _ => (⟨200, [], 0⟩ : WatchlistResponse))
        [(watchlistKey "carol", ⟨.movieListVal [⟨"9", "B (1999)", "b", []⟩], some 60⟩)]
        "carol").fetches = 0 ∧
    (get_watchlist_by_username 3600 (fun _ => (⟨200, [], 0⟩ : WatchlistResponse))
        [(watchlistKey "carol", ⟨.movieListVal [⟨"9", "B (1999)", "b", []⟩], some 60⟩)]
        "carol").accesses = [.read (watchlistKey "carol")] :=
  watchlist_cache_hit 3600 (fun _ => (⟨200, [], 0⟩ : WatchlistResponse))
    [(watchlistKey "carol", ⟨.movieListVal [⟨"9", "B (1999)", "b", []⟩], some 60⟩)]
    "carol" [⟨"9", "B (1999)", "b", []⟩] (some 60) (by decide) rfl

theorem search_accesses (resp : MOTNResponse) (c : Cache) (lid country : String) :
    (search_availability_by_ID resp c lid country).accesses
      = [.read (movieKey lid)] := by
  unfold search_availability_by_ID
  rcases cGet c (movieKey lid) with _ | e
  · rfl
  · rcases e with ⟨v, t⟩
    cases v
    case movieVal m =>
      simp only []
      repeat' split
      all_goals rfl
    all_goals rfl

theorem watchlist_accesses_cases (ttl : Nat) (env : WatchlistEnv) (c : Cache)
    (u : String) :
    (get_watchlist_by_username ttl env c u).accesses = [] ∨
    (get_watchlist_by_username ttl env c u).accesses = [.read (watchlistKey u)] ∨
    (get_watchlist_by_username ttl env c u).accesses
      = .read (watchlistKey u) ::
          ((env 1).movies.map (fun m => Access.write (movieKey m.movie_id))
            ++ (((pageRange (env 1).numPaginate).map fun i =>
                  (env i).movies.map fun m => Access.write (movieKey m.movie_id)).flatten
            ++ [.write (watchlistKey u)])) := by
  by_cases hu : u = ""
  · left
    simp [get_watchlist_by_username, hu]
  · rcases hw : cGet c (watchlistKey u) with _ | e
    · by_cases hs : (env 1).status = 200
      · right; right
        simp [get_watchlist_by_username, hu, hw, hs, extract_movies_from_page,
          extractGo_log, loop_log]
      · right; left
        simp [get_watchlist_by_username, hu, hw, hs]
    · rcases e with ⟨v, t⟩
      cases v <;> (right; left; simp [get_watchlist_by_username, hu, hw])

theorem availability_accesses_cases (ttl : Nat) (resp : MOTNResponse) (c : Cache)
    (lid country : String) :
    (get_availability_for_movie ttl resp c lid country).accesses
        = [.read (streamingOptionsKey lid)] ∨
    (get_availability_for_movie ttl resp c lid country).accesses
        = [.read (streamingOptionsKey lid), .read (movieKey lid)] ∨
    (get_availability_for_movie ttl resp c lid country).accesses
        = [.read (streamingOptionsKey lid), .read (movieKey lid),
           .write (streamingOptionsKey lid)] := by
  unfold get_availability_for_movie
  rcases hs : cGet c (streamingOptionsKey lid) with _ | e
  · rcases hr : (search_availability_by_ID resp c lid country).result with err | o
    · right; left
      simp [hs, hr, search_accesses]
    · rcases o with _ | opts
      · right; left
        simp [hs, hr, search_accesses]
      · right; right
        simp [hs, hr, search_accesses]
  · rcases e with ⟨v, t⟩
    cases v <;> (left; simp [hs])

/-- C9: every cache key read or written by any operation of the three
retrievers is well formed: it decomposes as namespace-tag plus identifier
for exactly one of the four key kinds movie:, watchlist:, poster:,
streaming_options:, so no key can collide across kinds. -/
theorem cache_key_namespacing :
    (∀ (ttl : Nat) (resp : PosterResponse) (c : Cache) (slug mid : Option String),
      ∀ a ∈ (get_poster_by_movie ttl resp c slug mid).accesses, KeyWF a.key) ∧
    (∀ (ttl : Nat) (env : WatchlistEnv) (c : Cache) (u : String),
      ∀ a ∈ (get_watchlist_by_username ttl env c u).accesses, KeyWF a.key) ∧
    (∀ (resp : MOTNResponse) (c : Cache) (lid country : String),
      ∀ a ∈ (search_availability_by_ID resp c lid country).accesses, KeyWF a.key) ∧
    (∀ (ttl : Nat) (resp : MOTNResponse) (c : Cache) (lid country : String),
      ∀ a ∈ (get_availability_for_movie ttl resp c lid country).accesses,
        KeyWF a.key) := by
  refine ⟨?_, ?_, ?_, ?_⟩
  · intro ttl resp c slug mid a ha
    cases slug with
    | none => simp [get_poster_by_movie] at ha
    | some s =>
      cases mid with
      | none => simp [get_poster_by_movie] at ha
      | some mid =>
        have hkey : a.key = posterKey mid := by
          rcases hc : cGet c (posterKey mid) with _ | e
          · by_cases h1 : resp.status = 403 ∨ resp.status = 404
            · simp [get_poster_by_movie, hc, h1] at ha
              subst ha
              rfl
            · by_cases h2 : resp.status = 500 ∨ resp.status = 503
              · simp [get_poster_by_movie, hc, h1, h2] at ha
                subst ha
                rfl
              · simp [get_poster_by_movie, hc, h1, h2] at ha
                rcases ha with rfl | rfl <;> rfl
          · simp [get_poster_by_movie, hc] at ha
            subst ha
            rfl
        rw [hkey]
        exact keyWF_posterKey mid
  · intro ttl env c u a ha
    rcases watchlist_accesses_cases ttl env c u with h | h | h <;> rw [h] at ha
    · simp at ha
    · simp at ha
      subst ha
      exact keyWF_watchlistKey u
    · simp at ha
      rcases ha with rfl | ⟨m, _, rfl⟩ | ⟨i, _, m, _, rfl⟩ | rfl
      · exact keyWF_watchlistKey u
      · exact keyWF_movieKey _
      · exact keyWF_movieKey _
      · exact keyWF_watchlistKey u
  · intro resp c lid country a ha
    rw [search_accesses] at ha
    simp at ha
    subst ha
    exact keyWF_movieKey lid
  · intro ttl resp c lid country a ha
    rcases availability_accesses_cases ttl resp c lid country with h | h | h <;>
      rw [h] at ha <;> simp at ha
    · subst ha
      exact keyWF_streamingOptionsKey lid
    · rcases ha with rfl | rfl
      · exact keyWF_streamingOptionsKey lid
      · exact keyWF_movieKey lid
    · rcases ha with rfl | rfl | rfl
      · exact keyWF_streamingOptionsKey lid
      · exact keyWF_movieKey lid
      · exact keyWF_streamingOptionsKey lid

/-- C9 witness: the key read by a concrete poster lookup is well formed. -/
theorem cache_key_namespacing_witness :
    KeyWF (Access.read (posterKey "9")).key :=
  cache_key_namespacing.1 3600 ⟨200, []⟩ [] (some "s") (some "9")
    (.read (posterKey "9")) (by decide)

end Watchlist
